import Mathlib

/-
Verification of the Thread2Channel forwarding bot (src/main.rs) against its
natural-language specification.  The Rust program is shallowly embedded:
pure helpers become Lean functions, the Discord HTTP client becomes an
explicit `Transport` record of oracles, and every network send attempt is
recorded in a trace of `SendEvent`s.  Machine integers (u64, u32) are
modelled as `Nat` with explicit bounds where overflow matters.
-/

namespace Thread2Channel

/-- Mirror of `ThreadInfo` (src/main.rs): the copy destination and the
full-history transfer flag for one monitored thread. -/
structure ThreadInfo where
  target_channel_id : Nat
  transfer_all_messages : Bool
  deriving DecidableEq

/-- Mirror of `is_thread_mapping_key`: `key.starts_with("THREAD_MAPPING_")`,
expressed on the character list. -/
def is_thread_mapping_key (key : String) : Bool :=
  "THREAD_MAPPING_".data.isPrefixOf key.data

/-- Model of Rust `str::split(':')`: split a character list at every
separator, keeping empty segments (so "a::b" has three fields and "" one). -/
def split_char (sep : Char) : List Char → List (List Char)
  | [] => [[]]
  | c :: cs =>
    let rest := split_char sep cs
    if c = sep then [] :: rest
    else
      match rest with
      | r :: rs => (c :: r) :: rs
      | [] => [[c]]

/-- `entry.split(':').collect::<Vec<_>>()` from `parse_thread_mapping_entry`. -/
def rust_split_colon (entry : String) : List String :=
  (split_char ':' entry.data).map String.mk

/-- Mirror of `is_valid_thread_mapping_format`:
`!(parts.len() < 2 || parts.len() > 3)`. -/
def is_valid_thread_mapping_format (parts : List String) : Bool :=
  !(decide (parts.length < 2) || decide (parts.length > 3))

/-- Digit accumulator for the model of `str::parse::<u64>()`. -/
def parse_u64_digits : List Char → Nat → Option Nat
  | [], acc => some acc
  | c :: cs, acc =>
    if c.isDigit then parse_u64_digits cs (acc * 10 + (c.toNat - 48)) else none

/-- Model of Rust `str::parse::<u64>()`: an optional leading plus sign, then a
nonempty run of ASCII digits whose value fits in 64 bits; anything else is an
error (`none`).  Overflow during accumulation in Rust is equivalent to the
final bound check here. -/
def parse_u64 (s : String) : Option Nat :=
  let cs :=
    match s.data with
    | '+' :: rest => rest
    | cs => cs
  match cs with
  | [] => none
  | _ =>
    match parse_u64_digits cs 0 with
    | some n => if n < 18446744073709551616 then some n else none
    | none => none

/-- Mirror of `parse_ids`: both identifier strings must parse as u64. -/
def parse_ids (thread_id_str channel_id_str : String) : Option (Nat × Nat) :=
  match parse_u64 thread_id_str, parse_u64 channel_id_str with
  | some thread_id, some channel_id => some (thread_id, channel_id)
  | _, _ => none

/-- Mirror of `parse_thread_mapping_entry`: split on colons, require 2 or 3
fields, parse the two identifiers, and set `transfer_all_messages` exactly
when there are 3 fields and the third is the literal "all". -/
def parse_thread_mapping_entry (entry : String) : Option (Nat × ThreadInfo) :=
  let parts := rust_split_colon entry
  if !(is_valid_thread_mapping_format parts) then none
  else
    match parse_ids (parts.getD 0 "") (parts.getD 1 "") with
    | none => none
    | some (thread_id, target_channel_id) =>
      some (thread_id,
        { target_channel_id := target_channel_id
          transfer_all_messages := parts.length == 3 && parts.getD 2 "" == "all" })

/-- Mirror of `parse_thread_mappings` over an explicit environment (list of
key/value pairs): keep the `THREAD_MAPPING_*` variables and filter-map their
values through `parse_thread_mapping_entry`. -/
def parse_thread_mappings (vars : List (String × String)) : List (Nat × ThreadInfo) :=
  (vars.filter (fun kv => is_thread_mapping_key kv.fst)).filterMap
    (fun kv => parse_thread_mapping_entry kv.snd)

/-- Model of `HashMap::get` on the map built by `collect`: when several
entries share a key the later insertion wins, so look from the back. -/
def hashmap_get (m : List (Nat × ThreadInfo)) (k : Nat) : Option ThreadInfo :=
  (m.reverse.find? (fun p => p.fst == k)).map Prod.snd

/-- Mirror of the fields of `twilight_model::user::User` that the program
reads: numeric id, username, bot flag, optional avatar hash. -/
structure User where
  id : Nat
  name : String
  bot : Bool
  avatar : Option String
  deriving DecidableEq

/-- Mirror of the fields of `twilight_model::channel::Attachment` that the
program reads. -/
structure Attachment where
  filename : String
  url : String
  deriving DecidableEq

/-- Message kind: the program only distinguishes `MessageType::Regular` from
every other variant (system messages, replies, thread starters, ...). -/
inductive MessageType where
  | Regular
  | NonRegular
  deriving DecidableEq

/-- Channel kind: the program only distinguishes the two thread variants from
every other `ChannelType`. -/
inductive ChannelType where
  | PublicThread
  | PrivateThread
  | GuildText
  deriving DecidableEq

/-- Mirror of the fields of `twilight_model::channel::Message` (and of the
`MessageCreate` payload, which derefs to it) that the program reads.
The timestamp is kept opaque as a `Nat`. -/
structure Message where
  channel_id : Nat
  author : User
  content : String
  attachments : List Attachment
  kind : MessageType
  timestamp : Nat
  deriving DecidableEq

/-- Mirror of `format_message_content`: `format!("**{author_name}**: {content}")`. -/
def format_message_content (author_name content : String) : String :=
  "**" ++ author_name ++ "**: " ++ content

/-- Mirror of `format_attachments`: empty string for no attachments, else a
fold appending a newline and the url for each attachment in order. -/
def format_attachments (attachments : List Attachment) : String :=
  if attachments.isEmpty then ""
  else attachments.foldl (fun acc attachment => acc ++ "\n" ++ attachment.url) ""

/-- Mirror of `create_full_message_content`. -/
def create_full_message_content (author_name content : String)
    (attachments : List Attachment) : String :=
  format_message_content author_name content ++ format_attachments attachments

/-- Mirror of `is_regular_user_message`:
`message.kind == MessageType::Regular && !message.author.bot`. -/
def is_regular_user_message (message : Message) : Bool :=
  message.kind == MessageType.Regular && !message.author.bot

/-- Mirror of `calculate_color`: `(user_id & 0xFFFFFF) as u32`. -/
def calculate_color (user_id : Nat) : Nat :=
  user_id &&& 0xFFFFFF

/-- Mirror of the avatar-url selection in `MessageEmbedBuilder::with_author`:
the configured avatar when present, otherwise the default avatar indexed by
`user_id % 5`. -/
def avatar_url (user : User) : String :=
  match user.avatar with
  | some avatar_hash =>
    "https://cdn.discordapp.com/avatars/" ++ Nat.repr user.id ++ "/" ++ avatar_hash ++ ".png"
  | none =>
    "https://cdn.discordapp.com/embed/avatars/" ++ Nat.repr (user.id % 5) ++ ".png"

/-- One field of a rich embed, per `twilight_model::...::EmbedField`. -/
structure EmbedField where
  name : String
  value : String
  inline : Bool
  deriving DecidableEq

/-- The embed data the program actually fills in via `MessageEmbedBuilder`
(footer, image, title etc. stay `None`/fixed in `build` and are omitted). -/
structure EmbedData where
  author_name : String
  author_icon_url : String
  description : String
  color : Nat
  timestamp : Nat
  fields : List EmbedField
  deriving DecidableEq

/-- The embed `transfer_single_message` builds: author (with avatar url),
description = message body, color from the author id, original timestamp, and
one "添付ファイル" field per attachment in order. -/
def build_embed (message : Message) : EmbedData :=
  { author_name := message.author.name
    author_icon_url := avatar_url message.author
    description := message.content
    color := calculate_color message.author.id
    timestamp := message.timestamp
    fields := message.attachments.map (fun attachment =>
      { name := "添付ファイル"
        value := "[" ++ attachment.filename ++ "](" ++ attachment.url ++ ")"
        inline := false }) }

/-- One attempted network send: plain-text message or embed message to a
destination channel.  Every `create_message` call is recorded, whether or not
the transport reports success. -/
inductive SendEvent where
  | text (dest : Nat) (content : String)
  | embed (dest : Nat) (e : EmbedData)
  deriving DecidableEq

/-- The external Discord HTTP client (`ChatClient` in the spec), as oracles:
whether a given text/embed send succeeds, the full newest-first message
history of a channel (or a fetch/decode error with its message), and the
channel kind lookup (`none` models a failed request or decode). -/
structure Transport where
  text_ok : Nat → String → Bool
  embed_ok : Nat → EmbedData → Bool
  history : Nat → Except String (List Message)
  channel_kind : Nat → Option ChannelType

/-- Mirror of `BotState`: the thread-mapping table (the HTTP client lives in
`Transport`). -/
structure BotState where
  thread_mappings : List (Nat × ThreadInfo)

/-- Mirror of `BotState::get_thread_info`. -/
def get_thread_info (state : BotState) (thread_id : Nat) : Option ThreadInfo :=
  hashmap_get state.thread_mappings thread_id

/-- Mirror of `BotState::send_message_to_channel`: one `create_message`
attempt with text content; the Bool is the `Result` (true = Ok). -/
def send_message_to_channel (t : Transport) (target_channel_id : Nat)
    (content : String) (_source_channel_id : Nat) : List SendEvent × Bool :=
  ([SendEvent.text target_channel_id content], t.text_ok target_channel_id content)

/-- The fixed "starting" status notice of `fetch_and_transfer_all_messages`. -/
def status_message : String :=
  "🔄 このスレッドのメッセージを全て取得して転送しています..."

/-- The "N messages will be transferred" notice; N is interpolated. -/
def info_message (n : Nat) : String :=
  "ℹ️ このスレッドから " ++ Nat.repr n ++ " 件のメッセージを転送します"

/-- The "completed" notice; N is interpolated. -/
def completion_message (n : Nat) : String :=
  "✅ スレッドからの " ++ Nat.repr n ++ " 件のメッセージの転送が完了しました"

/-- The error notice `try_fetch_messages` posts when the history fetch
fails; the transport error text is interpolated. -/
def fetch_error_message (e : String) : String :=
  "❌ メッセージ履歴の取得に失敗しました: " ++ e

/-- Mirror of `BotState::try_fetch_messages`.  The Rust code performs a
single `channel_messages(thread_id).limit(100)` call; per the Discord API
contract that call returns the newest at-most-100 messages (newest first),
modelled as `history.take 100`.  On a fetch error the error notice is sent to
the target channel and the error is propagated.  (The separate `model()`
decode failure behaves identically - notice then error - and is subsumed by
the error case.) -/
def try_fetch_messages (t : Transport) (thread_id target_channel_id : Nat) :
    List SendEvent × Except String (List Message) :=
  match t.history thread_id with
  | Except.error e =>
    ((send_message_to_channel t target_channel_id (fetch_error_message e) thread_id).fst,
     Except.error e)
  | Except.ok full_history => ([], Except.ok (full_history.take 100))

/-- Mirror of `BotState::transfer_single_message`: attempt the embed send;
on failure fall back to one plain-text send of the concatenated content.
The Bool is the overall `Result`. -/
def transfer_single_message (t : Transport) (message : Message)
    (target_channel_id thread_id : Nat) : List SendEvent × Bool :=
  let embed := build_embed message
  if t.embed_ok target_channel_id embed then
    ([SendEvent.embed target_channel_id embed], true)
  else
    let full_content :=
      create_full_message_content message.author.name message.content message.attachments
    let fallback := send_message_to_channel t target_channel_id full_content thread_id
    (SendEvent.embed target_channel_id embed :: fallback.fst, fallback.snd)

/-- The messages a backfill forwards, in processing order: mirror of
`messages.iter().rev().filter(|msg| is_regular_user_message(msg))` - the
fetched (newest-first) list reversed to oldest-first, then filtered. -/
def backfill_targets (messages : List Message) : List Message :=
  messages.reverse.filter is_regular_user_message

/-- Semantics of driving a list of futures concurrently
(`futures::future::try_join_all`): each future is its list of pending
events; a schedule picks, step by step, which future makes progress, and the
resulting trace is the corresponding interleaving.  Indices pointing at an
exhausted or missing future are skipped. -/
def run_schedule {α : Type} : List (List α) → List Nat → List α
  | _, [] => []
  | futures, i :: sched =>
    match futures.get? i with
    | some (x :: rest) => x :: run_schedule (futures.set i rest) sched
    | some [] => run_schedule futures sched
    | none => run_schedule futures sched

/-- Mirror of `BotState::fetch_and_transfer_all_messages`.  Sequential parts
(status notice, fetch, count notice, completion notice) follow the source
order with `?`-propagation on failed sends.  The per-message transfers are
handed to `futures::future::try_join_all`, which polls them concurrently, so
their sends are an interleaving of the per-message traces, chosen by the
environment and modelled by the `sched` parameter (the pacing sleeps carry no
events).  `try_join_all` succeeds only if every future succeeds, and only
then is the completion notice sent. -/
def fetch_and_transfer_all_messages (t : Transport) (thread_id target_channel_id : Nat)
    (sched : List Nat) : List SendEvent × Bool :=
  let s1 := send_message_to_channel t target_channel_id status_message thread_id
  if s1.snd = false then (s1.fst, false)
  else
    match try_fetch_messages t thread_id target_channel_id with
    | (ftrace, Except.error _) => (s1.fst ++ ftrace, false)
    | (ftrace, Except.ok messages) =>
      let total_messages := messages.length
      let s2 := send_message_to_channel t target_channel_id (info_message total_messages) thread_id
      if s2.snd = false then (s1.fst ++ ftrace ++ s2.fst, false)
      else
        let futures := (backfill_targets messages).map
          (fun msg => transfer_single_message t msg target_channel_id thread_id)
        let join_trace := run_schedule (futures.map Prod.fst) sched
        if futures.all Prod.snd = false then
          (s1.fst ++ ftrace ++ s2.fst ++ join_trace, false)
        else
          let s3 := send_message_to_channel t target_channel_id
            (completion_message total_messages) thread_id
          (s1.fst ++ ftrace ++ s2.fst ++ join_trace ++ s3.fst, s3.snd)

/-- Model of Rust `str::trim` (whitespace stripped from both ends). -/
def rust_trim (s : String) : String :=
  String.mk (((s.data.dropWhile Char.isWhitespace).reverse.dropWhile Char.isWhitespace).reverse)

/-- Mirror of `BotState::handle_command`: `"!all"` always starts the full
transfer; `"!start"` starts it only when `transfer_all_messages` is set;
anything else is not a command (`none`). -/
def handle_command (t : Transport) (command : String) (thread_info : ThreadInfo)
    (thread_id : Nat) (sched : List Nat) : Option (List SendEvent × Bool) :=
  let target_channel_id := thread_info.target_channel_id
  let trimmed_command := rust_trim command
  if trimmed_command = "!all" then
    some (fetch_and_transfer_all_messages t thread_id target_channel_id sched)
  else if trimmed_command = "!start" ∧ thread_info.transfer_all_messages = true then
    some (fetch_and_transfer_all_messages t thread_id target_channel_id sched)
  else none

/-- Mirror of `BotState::handle_message`: drop bot authors, drop unmapped
channels, run a command if one is recognized, otherwise forward the message
as labeled plain text.  The Bool is the returned `Result` (the early returns
are `Ok(())`). -/
def handle_message (t : Transport) (state : BotState) (msg : Message)
    (sched : List Nat) : List SendEvent × Bool :=
  if msg.author.bot then ([], true)
  else
    match get_thread_info state msg.channel_id with
    | none => ([], true)
    | some thread_info =>
      match handle_command t msg.content thread_info msg.channel_id sched with
      | some result => result
      | none =>
        let full_content :=
          create_full_message_content msg.author.name msg.content msg.attachments
        send_message_to_channel t thread_info.target_channel_id full_content msg.channel_id

/-- Mirror of the `MessageCreate` arm of `handle_event` (the task body): drop
bot authors, look up the channel kind, and inside a mapped thread run the
`!all` / `!start` command check; ordinary messages produce no sends on this
path (the source comments this explicitly).  Failed channel lookups fall
through silently (`if let Ok(..)`). -/
def handle_event (t : Transport) (state : BotState) (msg : Message)
    (sched : List Nat) : List SendEvent :=
  if msg.author.bot then []
  else
    match t.channel_kind msg.channel_id with
    | none => []
    | some kind =>
      if kind == ChannelType.PublicThread || kind == ChannelType.PrivateThread then
        match get_thread_info state msg.channel_id with
        | none => []
        | some thread_info =>
          let content := rust_trim msg.content
          let is_all_command := content == "!all"
          let is_start_command := content == "!start" && thread_info.transfer_all_messages
          if is_all_command || is_start_command then
            (fetch_and_transfer_all_messages t msg.channel_id
              thread_info.target_channel_id sched).fst
          else []
      else []

/-- A stream of inbound `MessageCreate` events processed in turn.  The
spawned per-event tasks all lock the single `BotState` mutex around their
entire body (including a running backfill), so event handling is serialized;
each event carries the schedule of its backfill join, and the observable
trace is the concatenation. -/
def process_events (t : Transport) (state : BotState) :
    List (Message × List Nat) → List SendEvent
  | [] => []
  | (msg, sched) :: rest => handle_event t state msg sched ++ process_events t state rest

/-- Spec-side rendering of the attachment block of a plain-text delivery:
one line (newline followed by the url) per attachment, in source order.
Stated from the specification wording for comparison with
`format_attachments`. -/
def attachment_lines : List Attachment → String
  | [] => ""
  | a :: rest => "\n" ++ a.url ++ attachment_lines rest

/- Concrete fixtures used by the individual claim theorems below. -/

def c1_user : User := { id := 1, name := "alice", bot := false, avatar := none }

def c1_msg_old : Message :=
  { channel_id := 111, author := c1_user, content := "first", attachments := []
    kind := MessageType.Regular, timestamp := 1 }

def c1_msg_new : Message :=
  { channel_id := 111, author := c1_user, content := "second", attachments := []
    kind := MessageType.Regular, timestamp := 2 }

def c1_t : Transport :=
  { text_ok := fun _ _ => true, embed_ok := fun _ _ => true
    history := fun _ => Except.ok [c1_msg_new, c1_msg_old]
    channel_kind := fun _ => some ChannelType.PublicThread }

def c2_t : Transport :=
  { text_ok := fun _ _ => true, embed_ok := fun _ _ => true
    history := fun _ => Except.ok []
    channel_kind := fun _ => some ChannelType.PublicThread }

def c2_state : BotState := ⟨[(111, ⟨222, false⟩)]⟩

def c2_bot_msg : Message :=
  { channel_id := 111, author := { id := 8, name := "loopbot", bot := true, avatar := none }
    content := "echo", attachments := [], kind := MessageType.Regular, timestamp := 1 }

def c2_reg_msg : Message :=
  { channel_id := 111, author := { id := 9, name := "human", bot := false, avatar := none }
    content := "hello", attachments := [], kind := MessageType.Regular, timestamp := 2 }

def c3_msg : Message :=
  { channel_id := 111, author := { id := 5, name := "dave", bot := false, avatar := none }
    content := "payload", attachments := [], kind := MessageType.Regular, timestamp := 1 }

def c3_fail_content : String := create_full_message_content "dave" "payload" []

def c3_t : Transport :=
  { text_ok := fun _ s => !(s == c3_fail_content), embed_ok := fun _ _ => false
    history := fun _ => Except.ok [c3_msg]
    channel_kind := fun _ => some ChannelType.PublicThread }

def c3w_msg : Message :=
  { channel_id := 7, author := { id := 6, name := "fred", bot := false, avatar := none }
    content := "note", attachments := [], kind := MessageType.Regular, timestamp := 1 }

def c3w_t : Transport :=
  { text_ok := fun _ _ => true, embed_ok := fun _ _ => false
    history := fun _ => Except.error "boom"
    channel_kind := fun _ => some ChannelType.PublicThread }

def c4_user : User := { id := 2, name := "bob", bot := false, avatar := none }

def c4_new : Message :=
  { channel_id := 111, author := c4_user, content := "new", attachments := []
    kind := MessageType.Regular, timestamp := 2 }

def c4_oldest : Message :=
  { channel_id := 111, author := c4_user, content := "oldest", attachments := []
    kind := MessageType.Regular, timestamp := 1 }

def c4_history : List Message := List.replicate 149 c4_new ++ [c4_oldest]

def c4_t : Transport :=
  { text_ok := fun _ _ => true, embed_ok := fun _ _ => true
    history := fun _ => Except.ok c4_history
    channel_kind := fun _ => some ChannelType.PublicThread }

def c5_msg : Message :=
  { channel_id := 111, author := { id := 10, name := "erin", bot := false, avatar := none }
    content := "!all", attachments := [], kind := MessageType.Regular, timestamp := 1 }

def c5_t : Transport :=
  { text_ok := fun _ _ => true, embed_ok := fun _ _ => true
    history := fun _ => Except.ok []
    channel_kind := fun _ => some ChannelType.PublicThread }

def c5_state : BotState := ⟨[(111, ⟨222, false⟩)]⟩

def c5w_msg : Message :=
  { channel_id := 111, author := { id := 11, name := "gail", bot := false, avatar := none }
    content := "!all", attachments := [], kind := MessageType.Regular, timestamp := 1 }

def c5w_t : Transport :=
  { text_ok := fun _ _ => true, embed_ok := fun _ _ => true
    history := fun _ => Except.ok []
    channel_kind := fun _ => some ChannelType.PublicThread }

def c5w_state : BotState := ⟨[(111, ⟨222, false⟩)]⟩

def c6_bot_msg : Message :=
  { channel_id := 111, author := { id := 3, name := "botty", bot := true, avatar := none }
    content := "from bot", attachments := [], kind := MessageType.Regular, timestamp := 3 }

def c6_m2 : Message :=
  { channel_id := 111, author := { id := 4, name := "carol", bot := false, avatar := none }
    content := "b", attachments := [], kind := MessageType.Regular, timestamp := 2 }

def c6_m1 : Message :=
  { channel_id := 111, author := { id := 4, name := "carol", bot := false, avatar := none }
    content := "a", attachments := [], kind := MessageType.Regular, timestamp := 1 }

def c6_t : Transport :=
  { text_ok := fun _ _ => true, embed_ok := fun _ _ => true
    history := fun _ => Except.ok [c6_bot_msg, c6_m2, c6_m1]
    channel_kind := fun _ => some ChannelType.PublicThread }

def c6w_t : Transport :=
  { text_ok := fun _ _ => true, embed_ok := fun _ _ => true
    history := fun _ => Except.ok []
    channel_kind := fun _ => some ChannelType.PublicThread }

def c9_t : Transport :=
  { text_ok := fun _ _ => true, embed_ok := fun _ _ => true
    history := fun _ => Except.ok []
    channel_kind := fun _ => some ChannelType.PublicThread }

def c9_state : BotState := ⟨[(111, ⟨222, false⟩)]⟩

def c9_msg : Message :=
  { channel_id := 111, author := { id := 7, name := "Ann", bot := false, avatar := none }
    content := "hi", attachments := [], kind := MessageType.Regular, timestamp := 1 }

def c10_t : Transport :=
  { text_ok := fun _ _ => true, embed_ok := fun _ _ => true
    history := fun _ => Except.ok []
    channel_kind := fun _ => some ChannelType.PublicThread }

def c10w_t : Transport :=
  { text_ok := fun _ _ => true, embed_ok := fun _ _ => true
    history := fun _ => Except.ok []
    channel_kind := fun _ => some ChannelType.PublicThread }

/- Helper lemmas on string concatenation and the attachment rendering. -/

theorem str_append_empty (s : String) : s ++ "" = s := by
  cases s with
  | mk data =>
    show String.mk (data ++ []) = String.mk data
    rw [List.append_nil]

theorem str_empty_append (s : String) : "" ++ s = s := by
  cases s with
  | mk data =>
    show String.mk ([] ++ data) = String.mk data
    rw [List.nil_append]

theorem str_append_assoc (a b c : String) : a ++ b ++ c = a ++ (b ++ c) := by
  cases a with
  | mk la =>
    cases b with
    | mk lb =>
      cases c with
      | mk lc =>
        show String.mk (la ++ lb ++ lc) = String.mk (la ++ (lb ++ lc))
        rw [List.append_assoc]

theorem foldl_attachment_lines (atts : List Attachment) (acc : String) :
    atts.foldl (fun a att => a ++ "\n" ++ att.url) acc = acc ++ attachment_lines atts := by
  induction atts generalizing acc with
  | nil => simp [attachment_lines, str_append_empty]
  | cons a rest ih =>
    rw [List.foldl_cons, ih]
    show acc ++ "\n" ++ a.url ++ attachment_lines rest
      = acc ++ ("\n" ++ a.url ++ attachment_lines rest)
    simp only [str_append_assoc]

theorem format_attachments_eq_lines (atts : List Attachment) :
    format_attachments atts = attachment_lines atts := by
  cases atts with
  | nil => rfl
  | cons a rest =>
    simp [format_attachments, foldl_attachment_lines, str_empty_append, attachment_lines]

/-- Claim C1: the spec requires the backfill-forwarded copies to reach the
destination in authored order m1..mN, but `fetch_and_transfer_all_messages`
hands the per-message send futures to `futures::future::try_join_all`, which
drives them concurrently, so the environment chooses their completion order.
Here the fetched (newest-first) history is [second, first]; the authored
order is [first, second] (first conjunct); yet under completion order [1, 0]
the embed copy of the newer message is sent before the older one (second
conjunct), the two sends being genuinely different (third conjunct), while
only the sequential order [0, 1] yields the claimed sequence (fourth
conjunct).  The code thus does not guarantee the claimed ordering. -/
theorem backfill_join_out_of_order :
    backfill_targets [c1_msg_new, c1_msg_old] = [c1_msg_old, c1_msg_new]
    ∧ fetch_and_transfer_all_messages c1_t 111 222 [1, 0]
      = ([SendEvent.text 222 status_message,
          SendEvent.text 222 (info_message 2),
          SendEvent.embed 222 (build_embed c1_msg_new),
          SendEvent.embed 222 (build_embed c1_msg_old),
          SendEvent.text 222 (completion_message 2)], true)
    ∧ build_embed c1_msg_new ≠ build_embed c1_msg_old
    ∧ fetch_and_transfer_all_messages c1_t 111 222 [0, 1]
      = ([SendEvent.text 222 status_message,
          SendEvent.text 222 (info_message 2),
          SendEvent.embed 222 (build_embed c1_msg_old),
          SendEvent.embed 222 (build_embed c1_msg_new),
          SendEvent.text 222 (completion_message 2)], true) := by
  refine ⟨by decide, by decide, by decide, by decide⟩

/-- Claim C2: a message from a bot author is never dispatched.  The
single-message path `handle_message` and the live event path `handle_event`
both return without any send attempt when the author is a bot, and the
backfill filter never selects a bot-authored message for forwarding. -/
theorem bot_author_never_dispatched :
    (∀ (t : Transport) (state : BotState) (msg : Message) (sched : List Nat),
      msg.author.bot = true → handle_message t state msg sched = ([], true))
    ∧ (∀ (t : Transport) (state : BotState) (msg : Message) (sched : List Nat),
      msg.author.bot = true → handle_event t state msg sched = [])
    ∧ (∀ (messages : List Message) (m : Message),
      m ∈ backfill_targets messages → m.author.bot = false) := by
  refine ⟨?_, ?_, ?_⟩
  · intro t state msg sched h
    simp [handle_message, h]
  · intro t state msg sched h
    simp [handle_event, h]
  · intro messages m hm
    simp [backfill_targets, List.mem_filter, is_regular_user_message] at hm
    exact hm.2.2

/-- Witness for C2 at concrete inputs: a bot-authored message produces no
sends on either path, and a concrete member of the backfill targets is
non-bot. -/
theorem bot_author_never_dispatched_witness :
    handle_message c2_t c2_state c2_bot_msg [] = ([], true)
    ∧ handle_event c2_t c2_state c2_bot_msg [] = []
    ∧ c2_reg_msg.author.bot = false :=
  ⟨bot_author_never_dispatched.1 c2_t c2_state c2_bot_msg [] rfl,
   bot_author_never_dispatched.2.1 c2_t c2_state c2_bot_msg [] rfl,
   bot_author_never_dispatched.2.2 [c2_reg_msg] c2_reg_msg (by decide)⟩

/-- Claim C3, counterexample: with one eligible message whose embed send and
plain-text fallback both fail, the job returns an error and the completion
notice is never posted, contradicting the claim that a per-message dispatch
failure is skipped without aborting the job. -/
theorem dispatch_failure_aborts_backfill_job :
    fetch_and_transfer_all_messages c3_t 111 222 [0, 0]
      = ([SendEvent.text 222 status_message,
          SendEvent.text 222 (info_message 1),
          SendEvent.embed 222 (build_embed c3_msg),
          SendEvent.text 222 c3_fail_content], false)
    ∧ SendEvent.text 222 (completion_message 1)
        ∉ (fetch_and_transfer_all_messages c3_t 111 222 [0, 0]).fst := by
  refine ⟨by decide, by decide⟩

/-- Claim C3, amended: an embed dispatch failure alone does not abort the
job - the message is retried as one plain-text send (second conjunct); the
completion notice is posted exactly when every eligible transfer succeeded
via embed or fallback (third conjunct), and any message whose fallback also
fails makes the job end in error with no completion notice (fourth
conjunct); a history-fetch failure is fatal and aborts after an error notice
is sent to the destination (first conjunct). -/
theorem backfill_error_handling (t : Transport) (thread_id target_channel_id : Nat)
    (sched : List Nat) :
    (∀ e, t.history thread_id = Except.error e →
      t.text_ok target_channel_id status_message = true →
      fetch_and_transfer_all_messages t thread_id target_channel_id sched
        = ([SendEvent.text target_channel_id status_message,
            SendEvent.text target_channel_id (fetch_error_message e)], false))
    ∧ (∀ m : Message, t.embed_ok target_channel_id (build_embed m) = false →
      t.text_ok target_channel_id
          (create_full_message_content m.author.name m.content m.attachments) = true →
      transfer_single_message t m target_channel_id thread_id
        = ([SendEvent.embed target_channel_id (build_embed m),
            SendEvent.text target_channel_id
              (create_full_message_content m.author.name m.content m.attachments)], true))
    ∧ (∀ h : List Message, t.history thread_id = Except.ok h →
      t.text_ok target_channel_id status_message = true →
      t.text_ok target_channel_id (info_message (h.take 100).length) = true →
      ((backfill_targets (h.take 100)).map
          (fun msg => transfer_single_message t msg target_channel_id thread_id)).all
        Prod.snd = true →
      fetch_and_transfer_all_messages t thread_id target_channel_id sched
        = ([SendEvent.text target_channel_id status_message,
            SendEvent.text target_channel_id (info_message (h.take 100).length)]
            ++ run_schedule (((backfill_targets (h.take 100)).map
                (fun msg => transfer_single_message t msg target_channel_id thread_id)).map
                  Prod.fst) sched
            ++ [SendEvent.text target_channel_id (completion_message (h.take 100).length)],
           t.text_ok target_channel_id (completion_message (h.take 100).length)))
    ∧ (∀ h : List Message, t.history thread_id = Except.ok h →
      t.text_ok target_channel_id status_message = true →
      t.text_ok target_channel_id (info_message (h.take 100).length) = true →
      ((backfill_targets (h.take 100)).map
          (fun msg => transfer_single_message t msg target_channel_id thread_id)).all
        Prod.snd = false →
      fetch_and_transfer_all_messages t thread_id target_channel_id sched
        = ([SendEvent.text target_channel_id status_message,
            SendEvent.text target_channel_id (info_message (h.take 100).length)]
            ++ run_schedule (((backfill_targets (h.take 100)).map
                (fun msg => transfer_single_message t msg target_channel_id thread_id)).map
                  Prod.fst) sched,
           false)) := by
  refine ⟨?_, ?_, ?_, ?_⟩
  · intro e hh hok
    simp [fetch_and_transfer_all_messages, send_message_to_channel, hok,
      try_fetch_messages, hh]
  · intro m hemb htext
    simp [transfer_single_message, hemb, send_message_to_channel, htext]
  · intro h hh hok1 hok2 hall
    simp [fetch_and_transfer_all_messages, send_message_to_channel, hok1, hok2,
      try_fetch_messages, hh, hall, -List.length_take]
  · intro h hh hok1 hok2 hfail
    simp [fetch_and_transfer_all_messages, send_message_to_channel, hok1, hok2,
      try_fetch_messages, hh, hfail, -List.length_take]

/-- Witness for C3 at concrete inputs: a failing history fetch aborts after
the error notice, and an embed failure with a succeeding fallback delivers
the message as plain text. -/
theorem backfill_error_handling_witness :
    fetch_and_transfer_all_messages c3w_t 5 6 []
      = ([SendEvent.text 6 status_message, SendEvent.text 6 (fetch_error_message "boom")], false)
    ∧ transfer_single_message c3w_t c3w_msg 6 5
      = ([SendEvent.embed 6 (build_embed c3w_msg),
          SendEvent.text 6 (create_full_message_content "fred" "note" [])], true) :=
  ⟨(backfill_error_handling c3w_t 5 6 []).1 "boom" rfl rfl,
   (backfill_error_handling c3w_t 5 6 []).2.1 c3w_msg rfl rfl⟩

set_option maxRecDepth 8000

/-- Claim C4: the backfill is supposed to page through the entire prior
history, but `try_fetch_messages` performs one `channel_messages` call with
limit 100 and no pagination loop.  With a 150-message history the fetched
list has only the newest 100 messages; the oldest message is never fetched
and never considered for forwarding, contradicting the code name and user
notices promising all messages. -/
theorem backfill_fetches_single_page_only :
    c4_history.length = 150
    ∧ (try_fetch_messages c4_t 111 222).snd.toOption = some (c4_history.take 100)
    ∧ (c4_history.take 100).length = 100
    ∧ c4_oldest ∉ c4_history.take 100
    ∧ c4_oldest ∉ backfill_targets (c4_history.take 100) := by
  refine ⟨by decide, by decide, by decide, by decide, by decide⟩

/-- Claim C5, counterexample: the code has no single-flight guard and no
AlreadyRunning reply.  Two successive !all triggers for the same source (the
spawned tasks are serialized by the bot-state mutex) each execute a complete
backfill job: the starting notice is sent twice, not once. -/
theorem second_trigger_executes_second_backfill :
    process_events c5_t c5_state [(c5_msg, []), (c5_msg, [])]
      = [SendEvent.text 222 status_message,
         SendEvent.text 222 (info_message 0),
         SendEvent.text 222 (completion_message 0),
         SendEvent.text 222 status_message,
         SendEvent.text 222 (info_message 0),
         SendEvent.text 222 (completion_message 0)]
    ∧ (process_events c5_t c5_state [(c5_msg, []), (c5_msg, [])]).count
        (SendEvent.text 222 status_message) = 2 := by
  refine ⟨by decide, by decide⟩

/-- Claim C5, amended: two backfill triggers for the same source are
serialized by the bot-state mutex and both execute: the observable trace is
one complete backfill run followed by another, with no rejection of the
second trigger. -/
theorem concurrent_triggers_serialized (t : Transport) (st : BotState) (m : Message)
    (info : ThreadInfo) (s1 s2 : List Nat)
    (hbot : m.author.bot = false)
    (hkind : t.channel_kind m.channel_id = some ChannelType.PublicThread)
    (hmap : get_thread_info st m.channel_id = some info)
    (hcmd : rust_trim m.content = "!all") :
    process_events t st [(m, s1), (m, s2)]
      = (fetch_and_transfer_all_messages t m.channel_id info.target_channel_id s1).fst
        ++ (fetch_and_transfer_all_messages t m.channel_id info.target_channel_id s2).fst := by
  simp [process_events, handle_event, hbot, hkind, hmap, hcmd]

/-- Witness for C5 at concrete inputs: both triggers run full backfill
jobs. -/
theorem concurrent_triggers_serialized_witness :
    process_events c5w_t c5w_state [(c5w_msg, []), (c5w_msg, [])]
      = (fetch_and_transfer_all_messages c5w_t 111 222 []).fst
        ++ (fetch_and_transfer_all_messages c5w_t 111 222 []).fst :=
  concurrent_triggers_serialized c5w_t c5w_state c5w_msg ⟨222, false⟩ [] []
    rfl rfl (by decide) (by decide)

/-- Claim C6, counterexample: with 3 fetched messages of which only 2 pass
the eligibility filter, the "will be transferred" notice still reports 3
(the raw fetched count), not the eligible count 2 that the claim requires. -/
theorem notice_reports_raw_fetched_count :
    (fetch_and_transfer_all_messages c6_t 111 222 [0, 1]).fst.get? 1
      = some (SendEvent.text 222 (info_message 3))
    ∧ (backfill_targets [c6_bot_msg, c6_m2, c6_m1]).length = 2
    ∧ info_message 3 ≠ info_message 2 := by
  refine ⟨by decide, by decide, by decide⟩

/-- Claim C6, amended: the notice reports N equal to the raw number of
fetched messages (the single page of at most 100), before the eligibility
filter is applied. -/
theorem notice_count_equals_fetched_count (t : Transport)
    (thread_id target_channel_id : Nat) (sched : List Nat) (h : List Message)
    (hh : t.history thread_id = Except.ok h)
    (hok : t.text_ok target_channel_id status_message = true) :
    (fetch_and_transfer_all_messages t thread_id target_channel_id sched).fst.get? 1
      = some (SendEvent.text target_channel_id (info_message (h.take 100).length)) := by
  simp only [fetch_and_transfer_all_messages, send_message_to_channel, hok,
    try_fetch_messages, hh]
  split
  · simp_all
  · split
    · simp [List.get?]
    · split <;> simp [List.get?]

/-- Witness for C6 at a concrete input: an empty fetched history gives the
notice with count 0 in position 1 of the trace. -/
theorem notice_count_equals_fetched_count_witness :
    (fetch_and_transfer_all_messages c6w_t 1 2 []).fst.get? 1
      = some (SendEvent.text 2 (info_message 0)) :=
  (notice_count_equals_fetched_count c6w_t 1 2 [] [] rfl rfl).trans (by decide)

/-- Claim C7, counterexample: an entry carrying an impersonation-endpoint
URL, valid under the grammar claimed by the spec, is split at every colon
(the URL scheme separator included) into four fields, fails the field-count
check, and produces no mapping at all - the round-trip fails. -/
theorem endpoint_entry_yields_no_mapping :
    parse_thread_mapping_entry "111:222:https://discord.com/api/webhooks/1/abc" = none
    ∧ rust_split_colon "111:222:https://discord.com/api/webhooks/1/abc"
        = ["111", "222", "https", "//discord.com/api/webhooks/1/abc"]
    ∧ hashmap_get
        (parse_thread_mappings
          [("THREAD_MAPPING_1", "111:222:https://discord.com/api/webhooks/1/abc")]) 111
        = none := by
  refine ⟨by decide, by decide, by decide⟩

/-- Claim C7, amended: for the grammar the code actually implements,
source_id:destination_id with an optional literal "all" third field, parsing
followed by registry lookup returns the mapping whose destination id and
backfill flag equal the parsed components; there is no impersonation
endpoint field. -/
theorem mapping_parse_lookup_roundtrip (key entry s d : String) (sid did : Nat)
    (hkey : is_thread_mapping_key key = true)
    (hs : parse_u64 s = some sid) (hd : parse_u64 d = some did) :
    (rust_split_colon entry = [s, d] →
      hashmap_get (parse_thread_mappings [(key, entry)]) sid
        = some { target_channel_id := did, transfer_all_messages := false })
    ∧ (rust_split_colon entry = [s, d, "all"] →
      hashmap_get (parse_thread_mappings [(key, entry)]) sid
        = some { target_channel_id := did, transfer_all_messages := true }) := by
  constructor
  · intro hsplit
    have hparse : parse_thread_mapping_entry entry
        = some (sid, { target_channel_id := did, transfer_all_messages := false }) := by
      simp [parse_thread_mapping_entry, hsplit, is_valid_thread_mapping_format,
        parse_ids, hs, hd]
    simp [parse_thread_mappings, hkey, hparse, hashmap_get]
  · intro hsplit
    have hparse : parse_thread_mapping_entry entry
        = some (sid, { target_channel_id := did, transfer_all_messages := true }) := by
      simp [parse_thread_mapping_entry, hsplit, is_valid_thread_mapping_format,
        parse_ids, hs, hd]
    simp [parse_thread_mappings, hkey, hparse, hashmap_get]

/-- Witness for C7 at concrete entries, with and without the "all" flag. -/
theorem mapping_parse_lookup_roundtrip_witness :
    hashmap_get (parse_thread_mappings [("THREAD_MAPPING_1", "111:222")]) 111
      = some { target_channel_id := 222, transfer_all_messages := false }
    ∧ hashmap_get (parse_thread_mappings [("THREAD_MAPPING_2", "333:444:all")]) 333
      = some { target_channel_id := 444, transfer_all_messages := true } :=
  ⟨(mapping_parse_lookup_roundtrip "THREAD_MAPPING_1" "111:222" "111" "222" 111 222
      (by decide) (by decide) (by decide)).1 (by decide),
   (mapping_parse_lookup_roundtrip "THREAD_MAPPING_2" "333:444:all" "333" "444" 333 444
      (by decide) (by decide) (by decide)).2 (by decide)⟩

/-- Claim C8, counterexample: an entry whose third field is a malformed
endpoint token (not a URL with colons, not the literal "all") is NOT
dropped: it parses to a mapping with the backfill flag unset, contradicting
the claim that such entries yield no mapping. -/
theorem third_token_entry_still_mapped :
    parse_thread_mapping_entry "1:2:notaurl"
      = some (1, { target_channel_id := 2, transfer_all_messages := false }) := by
  decide

/-- Claim C8, amended: entries with a wrong field count or a non-numeric
identifier yield no mapping (first three conjuncts); a third field other
than the literal "all" does not invalidate the entry - the mapping is kept
with the backfill flag unset (fourth conjunct); and an entry that yields no
mapping is simply skipped, leaving the remaining entries unaffected (fifth
conjunct) - parsing is total, so no fatal error can occur. -/
theorem malformed_entry_handling (entry key s d x : String) (sid did : Nat)
    (vars : List (String × String)) :
    (∀ parts : List String, rust_split_colon entry = parts →
      parts.length < 2 ∨ parts.length > 3 → parse_thread_mapping_entry entry = none)
    ∧ (rust_split_colon entry = [s, d] → parse_u64 s = none →
      parse_thread_mapping_entry entry = none)
    ∧ (rust_split_colon entry = [s, d] → parse_u64 d = none →
      parse_thread_mapping_entry entry = none)
    ∧ (rust_split_colon entry = [s, d, x] → x ≠ "all" →
      parse_u64 s = some sid → parse_u64 d = some did →
      parse_thread_mapping_entry entry
        = some (sid, { target_channel_id := did, transfer_all_messages := false }))
    ∧ (parse_thread_mapping_entry entry = none →
      parse_thread_mappings ((key, entry) :: vars) = parse_thread_mappings vars) := by
  refine ⟨?_, ?_, ?_, ?_, ?_⟩
  · intro parts hsplit hlen
    have hv : is_valid_thread_mapping_format parts = false := by
      unfold is_valid_thread_mapping_format
      rcases hlen with h | h <;> simp [h]
    simp [parse_thread_mapping_entry, hsplit, hv]
  · intro hsplit hs
    simp [parse_thread_mapping_entry, hsplit, is_valid_thread_mapping_format, parse_ids, hs]
  · intro hsplit hd
    simp [parse_thread_mapping_entry, hsplit, is_valid_thread_mapping_format, parse_ids, hd]
  · intro hsplit hx hs hd
    simp [parse_thread_mapping_entry, hsplit, is_valid_thread_mapping_format,
      parse_ids, hs, hd, hx]
  · intro hbad
    by_cases hkey : is_thread_mapping_key key = true
    · simp [parse_thread_mappings, hkey, hbad]
    · simp [parse_thread_mappings, hkey]

/-- Witness for C8 at concrete entries: a four-field entry and a
non-numeric-id entry yield no mapping, and the four-field entry leaves a
following valid entry intact. -/
theorem malformed_entry_handling_witness :
    parse_thread_mapping_entry "1:2:3:4" = none
    ∧ parse_thread_mapping_entry "abc:2" = none
    ∧ parse_thread_mappings [("THREAD_MAPPING_9", "1:2:3:4"), ("THREAD_MAPPING_8", "7:8")]
        = parse_thread_mappings [("THREAD_MAPPING_8", "7:8")] := by
  have h1 : parse_thread_mapping_entry "1:2:3:4" = none :=
    (malformed_entry_handling "1:2:3:4" "" "" "" "" 0 0 []).1
      ["1", "2", "3", "4"] (by decide) (by decide)
  have h2 : parse_thread_mapping_entry "abc:2" = none :=
    (malformed_entry_handling "abc:2" "" "abc" "2" "" 0 0 []).2.1 (by decide) (by decide)
  have h3 := (malformed_entry_handling "1:2:3:4" "THREAD_MAPPING_9" "" "" "" 0 0
    [("THREAD_MAPPING_8", "7:8")]).2.2.2.2 h1
  exact ⟨h1, h2, h3⟩

/-- Claim C9: whenever a message is delivered as plain text, the sent text
is the bold author label, a colon-space, the body, then one line per
attachment URL in source order (first conjunct, against the spec-side
rendering `attachment_lines`); the ordinary non-command dispatch in
`handle_message` sends exactly that text to the mapped destination (second
conjunct); and the fallback after a failed embed send in
`transfer_single_message` sends exactly that text (third conjunct). -/
theorem plain_text_delivery_format (name content : String) (atts : List Attachment)
    (t : Transport) (state : BotState) (msg : Message) (info : ThreadInfo)
    (sched : List Nat) (tgt tid : Nat) :
    (create_full_message_content name content atts
      = "**" ++ name ++ "**: " ++ content ++ attachment_lines atts)
    ∧ (msg.author.bot = false → get_thread_info state msg.channel_id = some info →
      handle_command t msg.content info msg.channel_id sched = none →
      handle_message t state msg sched
        = ([SendEvent.text info.target_channel_id
              (create_full_message_content msg.author.name msg.content msg.attachments)],
           t.text_ok info.target_channel_id
              (create_full_message_content msg.author.name msg.content msg.attachments)))
    ∧ (t.embed_ok tgt (build_embed msg) = false →
      transfer_single_message t msg tgt tid
        = ([SendEvent.embed tgt (build_embed msg),
            SendEvent.text tgt
              (create_full_message_content msg.author.name msg.content msg.attachments)],
           t.text_ok tgt
              (create_full_message_content msg.author.name msg.content msg.attachments))) := by
  refine ⟨?_, ?_, ?_⟩
  · simp [create_full_message_content, format_message_content, format_attachments_eq_lines]
  · intro hbot hmap hcmd
    simp [handle_message, hbot, hmap, hcmd, send_message_to_channel]
  · intro hemb
    simp [transfer_single_message, hemb, send_message_to_channel]

/-- Witness for C9 at the concrete example of the spec: body "hi" from
author "Ann" in mapped thread 111 with no attachments is delivered to
destination 222 exactly as the text with the bold label. -/
theorem plain_text_delivery_format_witness :
    handle_message c9_t c9_state c9_msg [] = ([SendEvent.text 222 "**Ann**: hi"], true) :=
  ((plain_text_delivery_format "Ann" "hi" [] c9_t c9_state c9_msg ⟨222, false⟩ [] 0 0).2.1
    rfl (by decide) (by decide)).trans (by decide)

/-- Claim C10, counterexample: with transfer_all_messages unset, the !all
command nevertheless starts a full-history replay - `handle_command` handles
it unconditionally - contradicting the claim that neither command starts a
replay for such a mapping. -/
theorem all_command_runs_without_flag :
    handle_command c10_t "!all" { target_channel_id := 222, transfer_all_messages := false } 111 []
      = some (fetch_and_transfer_all_messages c10_t 111 222 [])
    ∧ (handle_command c10_t "!all"
        { target_channel_id := 222, transfer_all_messages := false } 111 []).isSome = true := by
  refine ⟨by decide, by decide⟩

/-- Claim C10, amended: !all triggers the backfill unconditionally,
regardless of the transfer_all_messages flag (first conjunct), while !start
triggers it only when the flag is set (second conjunct) and is not treated
as a command otherwise (third conjunct). -/
theorem command_backfill_gating (t : Transport) (info : ThreadInfo) (tid : Nat)
    (sched : List Nat) :
    handle_command t "!all" info tid sched
      = some (fetch_and_transfer_all_messages t tid info.target_channel_id sched)
    ∧ (info.transfer_all_messages = true →
      handle_command t "!start" info tid sched
        = some (fetch_and_transfer_all_messages t tid info.target_channel_id sched))
    ∧ (info.transfer_all_messages = false →
      handle_command t "!start" info tid sched = none) := by
  have h1 : rust_trim "!all" = "!all" := by decide
  have h2 : rust_trim "!start" = "!start" := by decide
  have h3 : ("!start" : String) ≠ "!all" := by decide
  refine ⟨?_, ?_, ?_⟩
  · simp [handle_command, h1]
  · intro hflag
    simp [handle_command, h2, h3, hflag]
  · intro hflag
    simp [handle_command, h2, h3, hflag]

/-- Witness for C10 at a concrete mapping with the flag unset: !all runs the
backfill, !start does not. -/
theorem command_backfill_gating_witness :
    handle_command c10w_t "!all" { target_channel_id := 9, transfer_all_messages := false } 3 []
      = some (fetch_and_transfer_all_messages c10w_t 3 9 [])
    ∧ handle_command c10w_t "!start"
        { target_channel_id := 9, transfer_all_messages := false } 3 [] = none :=
  ⟨(command_backfill_gating c10w_t ⟨9, false⟩ 3 []).1,
   (command_backfill_gating c10w_t ⟨9, false⟩ 3 []).2.2 rfl⟩

end Thread2Channel
